import Mathlib

/-
Verification of the recipe recommendation backend
(backend/app/model_utils.py and backend/app/main.py).

Shallow embedding conventions:
* floating-point numbers are modelled as exact rationals;
* the external FAISS index and the sentence-transformers model are
  modelled through their interface: a search outcome is a pair of
  parallel lists (scores D, positions I) handed to the engine, and the
  index contract (lengths, sentinel conventions, sort order) appears as
  hypotheses where a claim depends on it;
* Python exceptions are modelled with Except; a keyword call that does
  not match the callee signature raises TypeError, which we model by an
  explicit keyword-compatibility check.
-/

namespace RecipesProject

/-- One row of metadata.csv as loaded into the catalog DataFrame:
columns id, title, ingredients, and the optional instructions, link, ner. -/
structure Row where
  id : Int
  title : String
  ingredients : String
  instructions : Option String := none
  link : Option String := none
  ner : Option String := none
deriving Repr, DecidableEq

/-- A recommendation result: the catalog row dict enriched with the two
computed keys similarity_score and match_percent
(model_utils.py lines 91-104). -/
structure RecResult where
  record : Row
  similarity_score : ℚ
  match_percent : ℚ
deriving Repr, DecidableEq

/-- Round-half-to-even to an integer, the rounding used by Python round(). -/
def rhe (q : ℚ) : ℤ :=
  if q - (⌊q⌋ : ℚ) < 1/2 then ⌊q⌋
  else if (1:ℚ)/2 < q - (⌊q⌋ : ℚ) then ⌊q⌋ + 1
  else if (2:ℤ) ∣ ⌊q⌋ then ⌊q⌋ else ⌊q⌋ + 1

/-- Python round(x, 2): round to the nearest multiple of 1/100, ties to even. -/
def pyRound2 (q : ℚ) : ℚ := (rhe (q * 100) : ℚ) / 100

/-- pandas DataFrame.iloc integer indexing: nonnegative positions index from
the front, negative positions from the back, anything else raises IndexError
(modelled as none). -/
def iloc {α : Type} (l : List α) (i : ℤ) : Option α :=
  if 0 ≤ i then l.get? i.toNat
  else if -(l.length : ℤ) ≤ i then l.get? ((l.length : ℤ) + i).toNat
  else none

/-- Build one result row (model_utils.py lines 91-104):
percent = max(0.0, (score + 1) / 2 * 100.0);
row[similarity_score] = float(score); row[match_percent] = round(percent, 2). -/
def mkResult (row : Row) (score : ℚ) : RecResult :=
  { record := row
    similarity_score := score
    match_percent := pyRound2 (max 0 ((score + 1) / 2 * 100)) }

namespace RecipeRecommender

/-- The loop body of RecipeRecommender.recommend (model_utils.py lines
86-104): iterate over zip(D[0], I[0]); skip sentinel index -1; look the
position up in the metadata (IndexError propagates as an exception);
append the enriched row. -/
def recommendLoop (meta : List Row) : List (ℚ × ℤ) → Except String (List RecResult)
  | [] => Except.ok []
  | p :: rest =>
    if p.2 = -1 then recommendLoop meta rest
    else
      match iloc meta p.2 with
      | none => Except.error "IndexError"
      | some row =>
        match recommendLoop meta rest with
        | Except.error e => Except.error e
        | Except.ok rs => Except.ok (mkResult row p.1 :: rs)

/-- RecipeRecommender.recommend (model_utils.py lines 71-107), parametrised
by the search outcome (D, I) that the external FAISS index returned for the
embedded query. -/
def recommend (meta : List Row) (D_ : List ℚ) (I_ : List ℤ) :
    Except String (List RecResult) :=
  recommendLoop meta (D_.zip I_)

/-- The pairs of zip(D[0], I[0]) that survive the sentinel filter. -/
def keptPairs (D_ : List ℚ) (I_ : List ℤ) : List (ℚ × ℤ) :=
  (D_.zip I_).filter (fun p => p.2 ≠ -1)

/-- The results the loop produces from the surviving pairs, in order. -/
def keptResults (meta : List Row) (D_ : List ℚ) (I_ : List ℤ) : List RecResult :=
  (keptPairs D_ I_).filterMap (fun p => (iloc meta p.2).map (fun row => mkResult row p.1))

lemma filter_cons_sentinel (p : ℚ × ℤ) (rest : List (ℚ × ℤ)) (h : p.2 = -1) :
    (p :: rest).filter (fun q => q.2 ≠ -1) = rest.filter (fun q => q.2 ≠ -1) := by
  rw [List.filter_cons]
  simp only [decide_eq_true_eq]
  rw [if_neg (by simp [h])]

lemma filter_cons_kept (p : ℚ × ℤ) (rest : List (ℚ × ℤ)) (h : ¬ p.2 = -1) :
    (p :: rest).filter (fun q => q.2 ≠ -1) = p :: rest.filter (fun q => q.2 ≠ -1) := by
  rw [List.filter_cons]
  simp only [decide_eq_true_eq]
  rw [if_pos h]

lemma recommendLoop_filter (meta : List Row) : ∀ pairs : List (ℚ × ℤ),
    recommendLoop meta (pairs.filter (fun p => p.2 ≠ -1)) = recommendLoop meta pairs
  | [] => rfl
  | p :: rest => by
    by_cases h : p.2 = -1
    · rw [filter_cons_sentinel p rest h, recommendLoop_filter meta rest,
        recommendLoop, if_pos h]
    · rw [filter_cons_kept p rest h, recommendLoop, if_neg h,
        recommendLoop_filter meta rest, recommendLoop, if_neg h]

lemma recommendLoop_eq_filterMap (meta : List Row) : ∀ (pairs : List (ℚ × ℤ))
    (rs : List RecResult), recommendLoop meta pairs = Except.ok rs →
    rs = (pairs.filter (fun p => p.2 ≠ -1)).filterMap
      (fun p => (iloc meta p.2).map (fun row => mkResult row p.1))
  | [], rs, h => by
    simp only [recommendLoop, Except.ok.injEq] at h
    simp [← h]
  | p :: rest, rs, h => by
    by_cases hp : p.2 = -1
    · rw [recommendLoop, if_pos hp] at h
      rw [filter_cons_sentinel p rest hp]
      exact recommendLoop_eq_filterMap meta rest rs h
    · rw [recommendLoop, if_neg hp] at h
      cases hi : iloc meta p.2 with
      | none => rw [hi] at h; exact absurd h (by simp)
      | some row =>
        rw [hi] at h
        cases hr : recommendLoop meta rest with
        | error e => rw [hr] at h; exact absurd h (by simp)
        | ok rs0 =>
          rw [hr, Except.ok.injEq] at h
          subst h
          rw [filter_cons_kept p rest hp, List.filterMap_cons, hi]
          rw [← recommendLoop_eq_filterMap meta rest rs0 hr]
          rfl

lemma recommendLoop_scores (meta : List Row) : ∀ (pairs : List (ℚ × ℤ))
    (rs : List RecResult), recommendLoop meta pairs = Except.ok rs →
    rs.map RecResult.similarity_score = (pairs.filter (fun p => p.2 ≠ -1)).map Prod.fst
  | [], rs, h => by
    simp only [recommendLoop, Except.ok.injEq] at h
    simp [← h]
  | p :: rest, rs, h => by
    by_cases hp : p.2 = -1
    · rw [recommendLoop, if_pos hp] at h
      rw [filter_cons_sentinel p rest hp]
      exact recommendLoop_scores meta rest rs h
    · rw [recommendLoop, if_neg hp] at h
      cases hi : iloc meta p.2 with
      | none => rw [hi] at h; exact absurd h (by simp)
      | some row =>
        rw [hi] at h
        cases hr : recommendLoop meta rest with
        | error e => rw [hr] at h; exact absurd h (by simp)
        | ok rs0 =>
          rw [hr, Except.ok.injEq] at h
          subst h
          rw [filter_cons_kept p rest hp, List.map_cons, List.map_cons,
            recommendLoop_scores meta rest rs0 hr]
          rfl

lemma recommend_mem_mkResult {meta : List Row} {D_ : List ℚ} {I_ : List ℤ}
    {rs : List RecResult} (h : recommend meta D_ I_ = Except.ok rs)
    {r : RecResult} (hr : r ∈ rs) : ∃ row, r = mkResult row r.similarity_score := by
  have heq := recommendLoop_eq_filterMap meta (D_.zip I_) rs h
  rw [heq] at hr
  rcases List.mem_filterMap.mp hr with ⟨p, _, hp⟩
  rcases Option.map_eq_some'.mp hp with ⟨row, _, hrow⟩
  exact ⟨row, by rw [← hrow]; rfl⟩

end RecipeRecommender

lemma rhe_ge_floor (q : ℚ) : ⌊q⌋ ≤ rhe q := by
  unfold rhe
  split_ifs <;> omega

lemma rhe_le_floor_add_one (q : ℚ) : rhe q ≤ ⌊q⌋ + 1 := by
  unfold rhe
  split_ifs <;> omega

lemma rhe_mono {x y : ℚ} (h : x ≤ y) : rhe x ≤ rhe y := by
  have hf : ⌊x⌋ ≤ ⌊y⌋ := Int.floor_mono h
  rcases lt_or_eq_of_le hf with hlt | heq
  · have h1 := rhe_le_floor_add_one x
    have h2 := rhe_ge_floor y
    omega
  · have hx2 : x < ⌊x⌋ + 1 := Int.lt_floor_add_one x
    have hy1 : (⌊y⌋ : ℚ) ≤ y := Int.floor_le y
    unfold rhe
    rw [heq]
    split_ifs <;> first
      | omega
      | (exfalso; rw [heq] at hx2; push_cast at hx2 hy1 ⊢; linarith)

lemma pyRound2_mono {x y : ℚ} (h : x ≤ y) : pyRound2 x ≤ pyRound2 y := by
  unfold pyRound2
  have h1 : rhe (x * 100) ≤ rhe (y * 100) := rhe_mono (by linarith)
  have h2 : ((rhe (x * 100) : ℚ)) ≤ ((rhe (y * 100) : ℚ)) := by exact_mod_cast h1
  exact (div_le_div_iff_of_pos_right (by norm_num : (0:ℚ) < 100)).mpr h2

/-- The score-to-percent map actually computed per result
(model_utils.py lines 99 and 102): the affine map with lower clamp,
then Python round to 2 decimal places. -/
def mpFun (s : ℚ) : ℚ := pyRound2 (max 0 ((s + 1) / 2 * 100))

lemma mpFun_mono {s t : ℚ} (h : s ≤ t) : mpFun s ≤ mpFun t := by
  unfold mpFun
  exact pyRound2_mono (max_le_max le_rfl (by linarith))

/-- The ordering contract of the index search output (spec section 4.2):
strictly descending by score, ties broken by strictly ascending position. -/
def faissOrder (p q : ℚ × ℤ) : Prop :=
  q.1 < p.1 ∨ (p.1 = q.1 ∧ p.2 < q.2)

instance faissOrder.decRel (p q : ℚ × ℤ) : Decidable (faissOrder p q) :=
  inferInstanceAs (Decidable (_ ∨ _))

lemma map_snd_zip_sublist : ∀ (D_ : List ℚ) (I_ : List ℤ),
    ((D_.zip I_).map Prod.snd).Sublist I_
  | [], _ => by simp
  | _ :: _, [] => by simp
  | d :: ds, i :: is => by
    rw [List.zip_cons_cons, List.map_cons]
    exact (map_snd_zip_sublist ds is).cons₂ i

/- ------------------------------------------------------------------
   The HTTP layer (backend/app/main.py).
   ------------------------------------------------------------------ -/

/-- The loaded FAISS index as seen through its interface:
ntotal stored vectors of dimension d. -/
structure FaissIndexData where
  ntotal : ℕ
  d : ℕ
deriving Repr, DecidableEq

/-- The loaded sentence-transformers model as seen through its interface:
it produces embeddings of dimension dim. -/
structure STModel where
  dim : ℕ
deriving Repr, DecidableEq

/-- The state RecipeRecommender.__init__ leaves behind
(model_utils.py lines 30-56): the loaded metadata, model and index,
and dim copied from the index. -/
structure RecipeRecommenderState where
  meta : List Row
  model : STModel
  index : FaissIndexData
  dim : ℕ
deriving Repr, DecidableEq

namespace RecipeRecommender

/-- RecipeRecommender.__init__ (model_utils.py lines 30-56), after the
three load steps delivered their artifacts: it only stores them and
copies index.d into dim; no size or dimension comparison is performed
anywhere in the constructor. -/
def init (meta : List Row) (model : STModel) (index : FaissIndexData) :
    Except String RecipeRecommenderState :=
  Except.ok { meta := meta, model := model, index := index, dim := index.d }

end RecipeRecommender

/-- The body of the /recommend request, as validated by pydantic
(main.py lines 77-88). -/
structure Query where
  ingredients : String
  top_k : ℕ
deriving Repr, DecidableEq

/-- What the /recommend endpoint hands back: either an HTTPException with a
status code and detail, or a JSON success body with query, results and the
optional message (main.py lines 108-120 and 163-208). -/
inductive ApiResponse
  | httpError (code : ℕ) (detail : String)
  | success (query : String) (results : List RecResult) (message : Option String)
deriving Repr, DecidableEq

/-- Python str.strip(): remove whitespace from both ends. -/
def pyStrip (s : String) : String :=
  ⟨((s.data.dropWhile Char.isWhitespace).reverse.dropWhile Char.isWhitespace).reverse⟩

/-- Python str.lower(): lower-case every character. -/
def pyLower (s : String) : String := ⟨s.data.map Char.toLower⟩

/-- Python keyword-argument call compatibility: the call succeeds only when
every keyword used by the caller names a parameter of the callee; otherwise
the interpreter raises TypeError before the body runs. -/
def pythonKwCallOk (params kwargs : List String) : Bool :=
  kwargs.all params.contains

/-- The keyword-accepting parameters of RecipeRecommender.recommend
(model_utils.py line 71): self, user_input, top_k. -/
def recommendParams : List String := ["self", "user_input", "top_k"]

/-- The keywords main.py passes to recommender.recommend
(main.py lines 186-190): user_input, top_k, require_exact_token. -/
def mainRecommendKwargs : List String := ["user_input", "top_k", "require_exact_token"]

/-- The engine call made inside the /recommend endpoint (main.py lines
186-190): the callee signature has no require_exact_token parameter, so the
keyword check fails and Python raises TypeError; otherwise the engine body
runs on the search outcome (D_, I_) the index returned for the query. -/
def callEngineRecommend (st : RecipeRecommenderState) (D_ : List ℚ) (I_ : List ℤ) :
    Except String (List RecResult) :=
  if pythonKwCallOk recommendParams mainRecommendKwargs
  then RecipeRecommender.recommend st.meta D_ I_
  else Except.error "TypeError: recommend() got an unexpected keyword argument require_exact_token"

/-- The /recommend endpoint (main.py lines 163-208), parametrised by the
global recommender and by the search outcome the index would deliver. -/
def recommendEndpoint (rec : Option RecipeRecommenderState)
    (D_ : List ℚ) (I_ : List ℤ) (q : Query) : ApiResponse :=
  match rec with
  | none => ApiResponse.httpError 503
      "Sistema de recomendacao nao esta disponivel no momento."
  | some st =>
    let user_text := pyLower (pyStrip q.ingredients)
    if user_text = "" then
      ApiResponse.httpError 400 "O campo ingredients nao pode ser vazio."
    else
      match callEngineRecommend st D_ I_ with
      | Except.error _ =>
        ApiResponse.httpError 500 "Ocorreu um erro ao processar a recomendacao."
      | Except.ok [] =>
        ApiResponse.success user_text []
          (some "Nenhuma receita encontrada para os ingredientes fornecidos.")
      | Except.ok rs => ApiResponse.success user_text rs none

/-- The startup event (main.py lines 126-147): try to construct the
recommender; on any exception log and leave the global recommender as None
instead of crashing. -/
def startup_event (loadResult : Except String RecipeRecommenderState) :
    Option RecipeRecommenderState :=
  match loadResult with
  | Except.ok st => some st
  | Except.error _ => none

/-- The /health endpoint (main.py lines 153-160): status and message. -/
def health (rec : Option RecipeRecommenderState) : String × String :=
  match rec with
  | some _ => ("ok", "API esta viva!")
  | none => ("degraded", "API viva, mas recomendador nao inicializado.")

/- ------------------------------------------------------------------
   The encoder (model_utils.py lines 58-69, embed_text).
   ------------------------------------------------------------------ -/

/-- Squared L2 norm of a vector. -/
def normSq (v : List ℚ) : ℚ := (v.map (fun x => x * x)).sum

/-- Pointwise scaling of a vector. -/
def scaleVec (c : ℚ) (v : List ℚ) : List ℚ := v.map (fun x => c * x)

/-- embed_text (model_utils.py lines 58-69): the external model encodes the
text into a raw vector and faiss.normalize_L2 scales it by the reciprocal of
its L2 norm. The scalar c stands for that reciprocal norm, characterised by
c * c * normSq raw = 1 (its defining equation, stated exactly where a claim
needs it; the norm itself is irrational in general). -/
def embed_text (raw : List ℚ) (c : ℚ) : List ℚ := scaleVec c raw

lemma normSq_scaleVec (c : ℚ) : ∀ v : List ℚ,
    normSq (scaleVec c v) = c * c * normSq v
  | [] => by simp [normSq, scaleVec]
  | x :: v => by
    have ih := normSq_scaleVec c v
    simp only [normSq, scaleVec] at ih
    simp only [normSq, scaleVec, List.map_cons, List.sum_cons]
    rw [ih]
    ring

/- ------------------------------------------------------------------
   Concrete fixtures used by counterexamples and witnesses.
   ------------------------------------------------------------------ -/

def rowA : Row := { id := 1, title := "Tomato Pasta",
                    ingredients := "tomato garlic olive oil pasta" }

def rowB : Row := { id := 2, title := "Chicken Rice",
                    ingredients := "chicken rice onion" }

def rowC : Row := { id := 3, title := "Pancakes",
                    ingredients := "flour milk egg sugar" }

def metaEx : List Row := [rowA, rowB, rowC]

def modelEx : STModel := { dim := 4 }

/-- An index whose vector count (2) disagrees with the catalog size (3) and
whose dimension (8) disagrees with the model dimension (4). -/
def indexMismatch : FaissIndexData := { ntotal := 2, d := 8 }

def stEx : RecipeRecommenderState :=
  { meta := metaEx, model := modelEx, index := { ntotal := 3, d := 4 }, dim := 4 }

/- ------------------------------------------------------------------
   Claims.
   ------------------------------------------------------------------ -/

/-- Claim C1: the exact-token filter is requested by the HTTP layer but does
not exist in the engine: RecipeRecommender.recommend accepts no
require_exact_token keyword and implements no token filtering, so the call
in main.py raises TypeError and every /recommend request (here a concrete
non-empty query against a healthy engine) is answered with HTTP 500 instead
of a filtered result list. -/
theorem claim_C1_exact_token_filter_unimplemented :
    pythonKwCallOk recommendParams mainRecommendKwargs = false ∧
    recommendEndpoint (some stEx) [(9:ℚ)/10, (4:ℚ)/5, (7:ℚ)/10] [0, 1, 2]
      { ingredients := "tomato garlic olive oil", top_k := 5 } =
      ApiResponse.httpError 500 "Ocorreu um erro ao processar a recomendacao." :=
  ⟨rfl, rfl⟩

/-- Claim C2, counterexample: initialization succeeds at a concrete input
whose index vector count (2) differs from the catalog size (3) and whose
encoder dimension (4) differs from the index dimension (8); no
SizeMismatchError or DimensionMismatchError is produced, refuting the claim
that initialization fails whenever the sizes or dimensions disagree. -/
theorem claim_C2_counterexample :
    RecipeRecommender.init metaEx modelEx indexMismatch =
      Except.ok { meta := metaEx, model := modelEx,
                  index := indexMismatch, dim := 8 } ∧
    metaEx.length ≠ indexMismatch.ntotal ∧
    modelEx.dim ≠ indexMismatch.d :=
  ⟨rfl, by decide, by decide⟩

/-- Claim C2, amended: RecipeRecommender.__init__ performs no consistency
validation at all: whatever loaded artifacts it is given, it constructs the
engine state and succeeds, even when the Index size differs from the Catalog
size or the Encoder dimension differs from the Index dimension. -/
theorem claim_C2_amended (meta : List Row) (model : STModel) (index : FaissIndexData) :
    RecipeRecommender.init meta model index =
      Except.ok { meta := meta, model := model, index := index, dim := index.d } :=
  rfl

/-- Claim C5: sentinel positions (-1) contribute nothing to the output of
recommend: the result equals the loop run on the sentinel-free pairs alone,
so no catalog lookup or score computation happens for a sentinel and no
sentinel is ever surfaced as a result. -/
theorem claim_C5_sentinels_filtered (meta : List Row) (D_ : List ℚ) (I_ : List ℤ) :
    RecipeRecommender.recommend meta D_ I_ =
      RecipeRecommender.recommendLoop meta (RecipeRecommender.keptPairs D_ I_) :=
  (RecipeRecommender.recommendLoop_filter meta (D_.zip I_)).symm

/-- Claim C8: when initialization fails, the startup handler swallows the
exception (no crash) and leaves the global recommender unset, the health
endpoint reports the service degraded, and every recommendation request is
refused with a structured HTTP 503 failure. -/
theorem claim_C8_init_failure_not_ready (err : String) (D_ : List ℚ) (I_ : List ℤ)
    (q : Query) :
    startup_event (Except.error err) = none ∧
    (health (startup_event (Except.error err))).1 = "degraded" ∧
    recommendEndpoint (startup_event (Except.error err)) D_ I_ q =
      ApiResponse.httpError 503
        "Sistema de recomendacao nao esta disponivel no momento." :=
  ⟨rfl, rfl, rfl⟩

/-- Claim C3, counterexample: at the concrete score 1/10000 the result of
recommend carries match_percent 50, while the claimed value, the lower-clamped
affine map (score + 1) / 2 * 100 without rounding, is 50.005; the two differ,
refuting the claim that match_percent equals the clamped affine value. -/
theorem claim_C3_counterexample :
    RecipeRecommender.recommend metaEx [(1:ℚ)/10000] [0] =
      Except.ok [mkResult rowA ((1:ℚ)/10000)] ∧
    (mkResult rowA ((1:ℚ)/10000)).match_percent = 50 ∧
    (mkResult rowA ((1:ℚ)/10000)).match_percent ≠
      max 0 ((((1:ℚ)/10000) + 1) / 2 * 100) := by
  refine ⟨rfl, ?_, ?_⟩
  · norm_num [mkResult, pyRound2, rhe]
  · norm_num [mkResult, pyRound2, rhe]

/-- Claim C3, amended: every result of recommend carries
match_percent = mpFun similarity_score, where mpFun is the lower-clamped
affine map (score + 1) / 2 * 100 followed by rounding to 2 decimal places;
mpFun is monotone non-decreasing, and maps -1, 0, 1 to 0, 50, 100. -/
theorem claim_C3_amended (meta : List Row) (D_ : List ℚ) (I_ : List ℤ)
    (rs : List RecResult) (r : RecResult)
    (h : RecipeRecommender.recommend meta D_ I_ = Except.ok rs) (hr : r ∈ rs) :
    r.match_percent = mpFun r.similarity_score ∧
    (∀ s t : ℚ, s ≤ t → mpFun s ≤ mpFun t) ∧
    mpFun (-1) = 0 ∧ mpFun 0 = 50 ∧ mpFun 1 = 100 := by
  refine ⟨?_, fun s t hst => mpFun_mono hst, ?_, ?_, ?_⟩
  · rcases RecipeRecommender.recommend_mem_mkResult h hr with ⟨row, hrow⟩
    rw [hrow]; rfl
  · norm_num [mpFun, pyRound2, rhe]
  · norm_num [mpFun, pyRound2, rhe]
  · norm_num [mpFun, pyRound2, rhe]

/-- Witness for claim C3 at a concrete input: the query returning recipe B
with score 1/2 satisfies the hypotheses of the amended theorem, and its
match_percent indeed equals mpFun of its similarity_score. -/
theorem claim_C3_witness :
    RecipeRecommender.recommend metaEx [(1:ℚ)/2] [1] =
      Except.ok [mkResult rowB ((1:ℚ)/2)] ∧
    (mkResult rowB ((1:ℚ)/2)).match_percent =
      mpFun (mkResult rowB ((1:ℚ)/2)).similarity_score :=
  ⟨rfl,
   (claim_C3_amended metaEx [(1:ℚ)/2] [1] [mkResult rowB ((1:ℚ)/2)]
      (mkResult rowB ((1:ℚ)/2)) rfl (List.mem_singleton_self _)).1⟩

/-- Claim C10: similarity_score is the raw index score unchanged (the zipped
D entry of the surviving pair, in order), and match_percent is the 2-decimal
rounding of the clamped affine map of that raw score. -/
theorem claim_C10_rounded_percent_raw_score (meta : List Row) (D_ : List ℚ)
    (I_ : List ℤ) (rs : List RecResult)
    (h : RecipeRecommender.recommend meta D_ I_ = Except.ok rs) :
    rs.map RecResult.similarity_score =
      (RecipeRecommender.keptPairs D_ I_).map Prod.fst ∧
    ∀ r ∈ rs, r.match_percent =
      pyRound2 (max 0 ((r.similarity_score + 1) / 2 * 100)) := by
  constructor
  · exact RecipeRecommender.recommendLoop_scores meta (D_.zip I_) rs h
  · intro r hr
    rcases RecipeRecommender.recommend_mem_mkResult h hr with ⟨row, hrow⟩
    rw [hrow]; rfl

/-- Witness for claim C10 at a concrete input: a single surviving pair with
score 3/4 and position 2. -/
theorem claim_C10_witness :
    RecipeRecommender.recommend metaEx [(3:ℚ)/4] [2] =
      Except.ok [mkResult rowC ((3:ℚ)/4)] ∧
    [mkResult rowC ((3:ℚ)/4)].map RecResult.similarity_score =
      (RecipeRecommender.keptPairs [(3:ℚ)/4] [2]).map Prod.fst :=
  ⟨rfl,
   (claim_C10_rounded_percent_raw_score metaEx [(3:ℚ)/4] [2]
      [mkResult rowC ((3:ℚ)/4)] rfl).1⟩

/-- Claim C4: under the index search contract (at most k rows returned, and
at most ntotal of them non-sentinel), the engine returns at most
min(k, ntotal) results: it drops sentinels and never pads the output. -/
theorem claim_C4_length_bound (meta : List Row) (D_ : List ℚ) (I_ : List ℤ)
    (k n : ℕ) (rs : List RecResult)
    (hk : I_.length ≤ k)
    (hn : (I_.filter (fun i => i ≠ -1)).length ≤ n)
    (h : RecipeRecommender.recommend meta D_ I_ = Except.ok rs) :
    rs.length ≤ min k n := by
  have hscores := RecipeRecommender.recommendLoop_scores meta (D_.zip I_) rs h
  have hlen : rs.length = ((D_.zip I_).filter (fun p => p.2 ≠ -1)).length := by
    have hcongr := congrArg List.length hscores
    simpa using hcongr
  rw [hlen]
  apply le_min
  · calc ((D_.zip I_).filter (fun p => p.2 ≠ -1)).length
        ≤ (D_.zip I_).length := List.length_filter_le _ _
      _ ≤ I_.length := by rw [List.length_zip]; exact min_le_right _ _
      _ ≤ k := hk
  · have hsub : ((D_.zip I_).map Prod.snd).Sublist I_ := map_snd_zip_sublist D_ I_
    have hsubf := hsub.filter (fun i => decide (i ≠ -1))
    have heq : ((D_.zip I_).map Prod.snd).filter (fun i => i ≠ -1) =
        ((D_.zip I_).filter (fun p => p.2 ≠ -1)).map Prod.snd := by
      rw [List.filter_map]
      rfl
    calc ((D_.zip I_).filter (fun p => p.2 ≠ -1)).length
        = (((D_.zip I_).filter (fun p => p.2 ≠ -1)).map Prod.snd).length :=
          (List.length_map _ _).symm
      _ = (((D_.zip I_).map Prod.snd).filter (fun i => i ≠ -1)).length := by rw [heq]
      _ ≤ (I_.filter (fun i => i ≠ -1)).length := hsubf.length_le
      _ ≤ n := hn

def dB : List ℚ := [(9:ℚ)/10, 4/5, 7/10, 0, 0, 0, 0, 0, 0, 0]

def iB : List ℤ := [0, 1, 2, -1, -1, -1, -1, -1, -1, -1]

def rsB : List RecResult :=
  [mkResult rowA ((9:ℚ)/10), mkResult rowB ((4:ℚ)/5), mkResult rowC ((7:ℚ)/10)]

/-- Witness for claim C4: Scenario B of the spec, top_k = 10 against a
catalog of 3 recipes; the index returns 3 valid rows plus sentinels and the
engine returns exactly 3 results, at most min 10 3. -/
theorem claim_C4_witness :
    iB.length ≤ 10 ∧ (iB.filter (fun i => i ≠ -1)).length ≤ 3 ∧
    RecipeRecommender.recommend metaEx dB iB = Except.ok rsB ∧
    rsB.length ≤ min 10 3 :=
  ⟨by decide, by decide, rfl,
   claim_C4_length_bound metaEx dB iB 10 3 rsB (by decide) (by decide) rfl⟩

/-- Claim C6: when the index output is ordered by descending score with ties
broken by ascending position, recommend preserves that order: the result
list is exactly the in-order image of the surviving pairs (no re-sorting),
its scores are non-increasing, and the surviving pairs keep the index
ordering. -/
theorem claim_C6_order_preserved (meta : List Row) (D_ : List ℚ) (I_ : List ℤ)
    (rs : List RecResult)
    (h : RecipeRecommender.recommend meta D_ I_ = Except.ok rs)
    (hsort : (D_.zip I_).Pairwise faissOrder) :
    rs = RecipeRecommender.keptResults meta D_ I_ ∧
    (rs.map RecResult.similarity_score).Pairwise (fun a b => b ≤ a) ∧
    (RecipeRecommender.keptPairs D_ I_).Pairwise faissOrder := by
  have hkept : (RecipeRecommender.keptPairs D_ I_).Pairwise faissOrder :=
    List.Pairwise.sublist (List.filter_sublist _) hsort
  refine ⟨RecipeRecommender.recommendLoop_eq_filterMap meta (D_.zip I_) rs h, ?_, hkept⟩
  have hscores := RecipeRecommender.recommendLoop_scores meta (D_.zip I_) rs h
  rw [hscores]
  rw [List.pairwise_map]
  apply hkept.imp
  intro a b hab
  rcases hab with hlt | ⟨heq, _⟩
  · exact le_of_lt hlt
  · exact le_of_eq heq.symm

def dS : List ℚ := [1, 0, 0]

def iS : List ℤ := [2, 0, 1]

def rsS : List RecResult := [mkResult rowC 1, mkResult rowA 0, mkResult rowB 0]

/-- Witness for claim C6: a sorted concrete search outcome with a score tie
broken by ascending position; the output preserves it. -/
theorem claim_C6_witness :
    RecipeRecommender.recommend metaEx dS iS = Except.ok rsS ∧
    (dS.zip iS).Pairwise faissOrder ∧
    (rsS.map RecResult.similarity_score).Pairwise (fun a b => b ≤ a) := by
  have hsort : (dS.zip iS).Pairwise faissOrder := by
    norm_num [dS, iS, List.pairwise_cons, faissOrder]
  exact ⟨rfl, hsort,
    (claim_C6_order_preserved metaEx dS iS rsS rfl hsort).2.1⟩

/-- Claim C7: a search that matches nothing (every returned position is the
sentinel, as with an empty catalog) makes the engine return the empty list
as a success, not an error; and when the engine call inside the endpoint
raises, the endpoint answers with a structured HTTP 500 failure, never with
an empty success body. -/
theorem claim_C7_empty_vs_error :
    (∀ (meta : List Row) (D_ : List ℚ) (I_ : List ℤ),
        (∀ i ∈ I_, i = (-1 : ℤ)) →
        RecipeRecommender.recommend meta D_ I_ = Except.ok []) ∧
    (∀ (st : RecipeRecommenderState) (D_ : List ℚ) (I_ : List ℤ) (q : Query)
        (e : String),
        pyLower (pyStrip q.ingredients) ≠ "" →
        callEngineRecommend st D_ I_ = Except.error e →
        recommendEndpoint (some st) D_ I_ q =
          ApiResponse.httpError 500 "Ocorreu um erro ao processar a recomendacao.") := by
  constructor
  · intro meta D_ I_ hall
    have hkept : (D_.zip I_).filter (fun p => p.2 ≠ -1) = [] := by
      apply List.filter_eq_nil_iff.mpr
      intro p hp
      have hmem := List.of_mem_zip hp
      simp [hall p.2 hmem.2]
    have hfilter := RecipeRecommender.recommendLoop_filter meta (D_.zip I_)
    rw [hkept] at hfilter
    rw [RecipeRecommender.recommend, ← hfilter]
    rfl
  · intro st D_ I_ q e hne hcall
    simp only [recommendEndpoint]
    rw [if_neg hne, hcall]

/-- Witness for claim C7: an all-sentinel search outcome gives the empty
success list at the engine level, and a concrete erroring engine call (the
TypeError raised for the phantom require_exact_token keyword) is answered
by the endpoint with HTTP 500. -/
theorem claim_C7_witness :
    RecipeRecommender.recommend metaEx [(1:ℚ)/2] [-1] = Except.ok [] ∧
    recommendEndpoint (some stEx) [(1:ℚ)/2] [-1]
      { ingredients := "tomato", top_k := 5 } =
      ApiResponse.httpError 500 "Ocorreu um erro ao processar a recomendacao." :=
  ⟨claim_C7_empty_vs_error.1 metaEx [(1:ℚ)/2] [-1] (by decide),
   claim_C7_empty_vs_error.2 stEx [(1:ℚ)/2] [-1]
      { ingredients := "tomato", top_k := 5 }
      "TypeError: recommend() got an unexpected keyword argument require_exact_token"
      (by decide) rfl⟩

/-- Claim C9: embed_text scales the raw model vector by the reciprocal of
its L2 norm (the scalar c with c * c * normSq raw = 1, as faiss.normalize_L2
computes); the resulting vector has squared L2 norm exactly 1 — hence unit
norm within any tolerance, in particular 1e-5 — and keeps the dimension D of
the raw embedding. -/
theorem claim_C9_unit_norm (raw : List ℚ) (c : ℚ) (D : ℕ)
    (hc : c * c * normSq raw = 1) (hdim : raw.length = D) :
    normSq (embed_text raw c) = 1 ∧
    |normSq (embed_text raw c) - 1| ≤ 1 / 100000 ∧
    (embed_text raw c).length = D := by
  have h1 : normSq (embed_text raw c) = 1 := by
    rw [embed_text, normSq_scaleVec, hc]
  refine ⟨h1, by rw [h1]; norm_num, ?_⟩
  rw [embed_text, scaleVec, List.length_map, hdim]

/-- Witness for claim C9: the raw vector (3, 4) has norm 5, so c = 1/5
satisfies the defining equation, and the normalized vector has unit squared
norm and dimension 2. -/
theorem claim_C9_witness :
    (1:ℚ)/5 * ((1:ℚ)/5) * normSq [3, 4] = 1 ∧
    normSq (embed_text [3, 4] ((1:ℚ)/5)) = 1 ∧
    (embed_text [(3:ℚ), 4] ((1:ℚ)/5)).length = 2 := by
  have hc : (1:ℚ)/5 * ((1:ℚ)/5) * normSq [3, 4] = 1 := by
    norm_num [normSq]
  have h := claim_C9_unit_norm [3, 4] ((1:ℚ)/5) 2 hc rfl
  exact ⟨hc, h.1, h.2.2⟩

end RecipesProject
